import Mathlib

/-!
Shallow embedding of `src/src/main.rs` (a single-shot OpenAI-style
completion requester) and proofs of the behavioural claims about it.

The program:
* merges an optional `.env` file into the process environment (`dotenv().ok()`),
* reads `OPENAI_API_KEY` and `BASE_URL` with `.expect(...)` (panic when absent),
* prints the two values and a client-initialized line,
* builds a fixed completion request (`gpt-4o-mini`, a fixed prompt, 100 tokens),
* submits it once and prints either the first choice's text or an error line.

We model the run as a pure function of the environment map, the optional
dotenv file contents, and a transport oracle, producing a trace of the
observable behaviour (stdout lines, stderr lines, the request built and
sent, the constructed client, and the process outcome).
-/

namespace DeepseekAgent

/-- One candidate completion in a service response (`response.choices`,
`choice.text` at src/src/main.rs lines 36-37). -/
structure Choice where
  text : String
deriving DecidableEq, Repr

/-- A successful completion response: an ordered sequence of choices. -/
structure CreateCompletionResponse where
  choices : List Choice
deriving DecidableEq, Repr

/-- Result of the transport call `client.completions().create(request).await`:
either a response or an error description (the `Display` rendering of the
library error). -/
inductive ApiResult where
  | ok : CreateCompletionResponse → ApiResult
  | err : String → ApiResult
deriving DecidableEq, Repr

/-- Client configuration (`async_openai::config::OpenAIConfig`): an API base
URL and an API key. -/
structure OpenAIConfig where
  api_base : String
  api_key : String
deriving DecidableEq, Repr

/-- The library's default API base, used by `OpenAIConfig::new()` when no base
is set explicitly. -/
def OPENAI_API_BASE : String := "https://api.openai.com/v1"

/-- `OpenAIConfig::new()`: default configuration (default base, empty key). -/
def OpenAIConfig.new : OpenAIConfig :=
  { api_base := OPENAI_API_BASE, api_key := "" }

/-- `OpenAIConfig::with_api_key`: replace the key, keep everything else. -/
def OpenAIConfig.with_api_key (c : OpenAIConfig) (key : String) : OpenAIConfig :=
  { c with api_key := key }

/-- The OpenAI client, determined by its configuration. -/
structure Client where
  config : OpenAIConfig
deriving DecidableEq, Repr

/-- `Client::with_config`: wrap a configuration into a client. -/
def Client.with_config (config : OpenAIConfig) : Client :=
  { config := config }

/-- The completion request (`async_openai::types::CreateCompletionRequest`):
model and prompt are required fields, `max_tokens` is optional. -/
structure CreateCompletionRequest where
  model : String
  prompt : String
  max_tokens : Option Nat
deriving DecidableEq, Repr

/-- The request builder (`CreateCompletionRequestArgs`): every field starts
uninitialized. -/
structure CreateCompletionRequestArgs where
  model : Option String
  prompt : Option String
  max_tokens : Option Nat
deriving DecidableEq, Repr

/-- `CreateCompletionRequestArgs::default()`: all fields uninitialized. -/
def CreateCompletionRequestArgs.default : CreateCompletionRequestArgs :=
  { model := none, prompt := none, max_tokens := none }

/-- Builder setter `.model(...)`. -/
def CreateCompletionRequestArgs.set_model (a : CreateCompletionRequestArgs)
    (m : String) : CreateCompletionRequestArgs :=
  { a with model := some m }

/-- Builder setter `.prompt(...)`. -/
def CreateCompletionRequestArgs.set_prompt (a : CreateCompletionRequestArgs)
    (p : String) : CreateCompletionRequestArgs :=
  { a with prompt := some p }

/-- Builder setter `.max_tokens(...)`. -/
def CreateCompletionRequestArgs.set_max_tokens (a : CreateCompletionRequestArgs)
    (n : Nat) : CreateCompletionRequestArgs :=
  { a with max_tokens := some n }

/-- Builder `.build()`: fails when a required field is uninitialized. -/
def CreateCompletionRequestArgs.build (a : CreateCompletionRequestArgs) :
    Except String CreateCompletionRequest :=
  match a.model, a.prompt with
  | some m, some p => .ok { model := m, prompt := p, max_tokens := a.max_tokens }
  | none, _ => .error "model: uninitialized field"
  | some _, none => .error "prompt: uninitialized field"

/-- A process environment: a partial map from variable names to values.
`env::var` errors exactly when the map returns `none`. -/
abbrev EnvMap := String → Option String

/-- Lookup in a parsed `.env` file (first matching key wins). -/
def lookupPairs (pairs : List (String × String)) (key : String) : Option String :=
  (pairs.find? (fun p => p.1 == key)).map (fun p => p.2)

/-- `dotenv().ok()`: merge the optional `.env` file into the environment.
The file never overrides variables already present; `none` models a file
that is absent or unreadable (the error is discarded by `.ok()`). -/
def dotenvMerge (vars : EnvMap) (file : Option (List (String × String))) : EnvMap :=
  fun key =>
    match vars key with
    | some v => some v
    | none =>
      match file with
      | some pairs => lookupPairs pairs key
      | none => none

/-- Process outcome: normal termination, or an abort (`panic`) carrying the
panic message. -/
inductive Outcome where
  | normal : Outcome
  | panic : String → Outcome
deriving DecidableEq, Repr

/-- Observable trace of one run: stdout lines, stderr lines, the request that
was built (if the builder ran to completion), the request handed to the
transport (if the network call was reached), the constructed client (if
construction was reached), and the process outcome. -/
structure Trace where
  stdout : List String
  stderr : List String
  requestBuilt : Option CreateCompletionRequest
  requestSent : Option CreateCompletionRequest
  client : Option Client
  outcome : Outcome
deriving DecidableEq, Repr

/-- Everything `main` does before the network call (src/src/main.rs lines
6-32): either a panic (with the stdout emitted so far), or the stdout lines,
the client, and the built request. -/
inductive SetupResult where
  | panic : List String → String → SetupResult
  | ready : List String → Client → CreateCompletionRequest → SetupResult
deriving DecidableEq, Repr

/-- The configuration-and-construction phase of `main`:
`env::var("OPENAI_API_KEY").expect(...)`, `env::var("BASE_URL").expect(...)`,
the three `println!` lines, client construction, and the request builder with
its `.unwrap()`. -/
def setup (env : EnvMap) : SetupResult :=
  match env "OPENAI_API_KEY" with
  | none => .panic [] "OPENAI_API_KEY must be set"
  | some api_key =>
    match env "BASE_URL" with
    | none => .panic [] "BASE_URL must be set"
    | some base_url =>
      let config := OpenAIConfig.new.with_api_key api_key
      let client := Client.with_config config
      let out := ["API Key: " ++ api_key, "Base URL: " ++ base_url,
                  "Client initialized successfully!"]
      match (((CreateCompletionRequestArgs.default.set_model
                "gpt-4o-mini").set_prompt
                "Hello! Can you tell me a short joke?").set_max_tokens 100).build with
      | .error e => .panic out ("called Result::unwrap() on an Err value: " ++ e)
      | .ok request => .ready out client request

/-- The whole of `main` given an already-merged environment: run `setup`,
then the `match client.completions().create(request).await` block
(src/src/main.rs lines 34-43). -/
def mainCore (env : EnvMap) (transport : CreateCompletionRequest → ApiResult) :
    Trace :=
  match setup env with
  | .panic out msg =>
    { stdout := out, stderr := [], requestBuilt := none, requestSent := none,
      client := none, outcome := .panic msg }
  | .ready out client request =>
    match transport request with
    | .ok response =>
      match response.choices.head? with
      | some choice =>
        { stdout := out ++ ["DeepSeek Response: " ++ choice.text], stderr := [],
          requestBuilt := some request, requestSent := some request,
          client := some client, outcome := .normal }
      | none =>
        { stdout := out, stderr := [], requestBuilt := some request,
          requestSent := some request, client := some client, outcome := .normal }
    | .err e =>
      { stdout := out, stderr := ["Error calling DeepSeek API: " ++ e],
        requestBuilt := some request, requestSent := some request,
        client := some client, outcome := .normal }

/-- The whole of `main` from the raw process environment and the optional
`.env` file: `dotenv().ok()` merges first, then everything else runs over the
merged environment. -/
def main_run (vars : EnvMap) (file : Option (List (String × String)))
    (transport : CreateCompletionRequest → ApiResult) : Trace :=
  mainCore (dotenvMerge vars file) transport

/-- The one request the program can ever build: all three fields are literals
in the source (src/src/main.rs lines 27-32). -/
def fixedRequest : CreateCompletionRequest :=
  { model := "gpt-4o-mini", prompt := "Hello! Can you tell me a short joke?",
    max_tokens := some 100 }

/-- The three stdout lines emitted before the network call. -/
def setupLines (api_key base_url : String) : List String :=
  ["API Key: " ++ api_key, "Base URL: " ++ base_url,
   "Client initialized successfully!"]

theorem setup_ready {env : EnvMap} {k u : String}
    (h1 : env "OPENAI_API_KEY" = some k) (h2 : env "BASE_URL" = some u) :
    setup env = .ready (setupLines k u)
      (Client.with_config (OpenAIConfig.new.with_api_key k)) fixedRequest := by
  unfold setup
  rw [h1, h2]
  rfl

theorem outcome_normal_of_ready {env : EnvMap} {out : List String} {c : Client}
    {r : CreateCompletionRequest} (transport : CreateCompletionRequest → ApiResult)
    (h : setup env = .ready out c r) :
    (mainCore env transport).outcome = .normal := by
  unfold mainCore
  rw [h]
  dsimp only
  cases transport r with
  | ok response =>
    dsimp only
    cases response.choices.head? <;> rfl
  | err e => rfl

theorem stdout_take_of_ready {env : EnvMap} {out : List String} {c : Client}
    {r : CreateCompletionRequest} (transport : CreateCompletionRequest → ApiResult)
    (h : setup env = .ready out c r) :
    (mainCore env transport).stdout.take out.length = out := by
  unfold mainCore
  rw [h]
  dsimp only
  cases transport r with
  | ok response =>
    dsimp only
    cases response.choices.head? with
    | some choice => simp
    | none => simp
  | err e => simp

theorem client_of_ready {env : EnvMap} {out : List String} {c : Client}
    {r : CreateCompletionRequest} (transport : CreateCompletionRequest → ApiResult)
    (h : setup env = .ready out c r) :
    (mainCore env transport).client = some c := by
  unfold mainCore
  rw [h]
  dsimp only
  cases transport r with
  | ok response =>
    dsimp only
    cases response.choices.head? <;> rfl
  | err e => rfl

theorem setup_panic_key {env : EnvMap} (h : env "OPENAI_API_KEY" = none) :
    setup env = .panic [] "OPENAI_API_KEY must be set" := by
  unfold setup
  rw [h]

theorem setup_panic_base {env : EnvMap} {k : String}
    (h1 : env "OPENAI_API_KEY" = some k) (h2 : env "BASE_URL" = none) :
    setup env = .panic [] "BASE_URL must be set" := by
  unfold setup
  rw [h1, h2]

theorem mainCore_panic {env : EnvMap} {out : List String} {m : String}
    (transport : CreateCompletionRequest → ApiResult)
    (h : setup env = .panic out m) :
    mainCore env transport =
      { stdout := out, stderr := [], requestBuilt := none, requestSent := none,
        client := none, outcome := .panic m } := by
  unfold mainCore
  rw [h]

theorem mainCore_err {env : EnvMap} {out : List String} {c : Client}
    {r : CreateCompletionRequest} {e : String}
    (transport : CreateCompletionRequest → ApiResult)
    (h : setup env = .ready out c r) (ht : transport r = .err e) :
    mainCore env transport =
      { stdout := out, stderr := ["Error calling DeepSeek API: " ++ e],
        requestBuilt := some r, requestSent := some r, client := some c,
        outcome := .normal } := by
  unfold mainCore
  rw [h]
  dsimp only
  rw [ht]

theorem mainCore_ok_cons {env : EnvMap} {out : List String} {c : Client}
    {r : CreateCompletionRequest} {response : CreateCompletionResponse}
    {choice : Choice} {rest : List Choice}
    (transport : CreateCompletionRequest → ApiResult)
    (h : setup env = .ready out c r) (ht : transport r = .ok response)
    (hc : response.choices = choice :: rest) :
    mainCore env transport =
      { stdout := out ++ ["DeepSeek Response: " ++ choice.text], stderr := [],
        requestBuilt := some r, requestSent := some r, client := some c,
        outcome := .normal } := by
  unfold mainCore
  rw [h]
  dsimp only
  rw [ht]
  dsimp only
  rw [hc]
  rfl

theorem mainCore_ok_nil {env : EnvMap} {out : List String} {c : Client}
    {r : CreateCompletionRequest} {response : CreateCompletionResponse}
    (transport : CreateCompletionRequest → ApiResult)
    (h : setup env = .ready out c r) (ht : transport r = .ok response)
    (hc : response.choices = []) :
    mainCore env transport =
      { stdout := out, stderr := [], requestBuilt := some r,
        requestSent := some r, client := some c, outcome := .normal } := by
  unfold mainCore
  rw [h]
  dsimp only
  rw [ht]
  dsimp only
  rw [hc]
  rfl

theorem requestSent_of_ready {env : EnvMap} {out : List String} {c : Client}
    {r : CreateCompletionRequest}
    (transport : CreateCompletionRequest → ApiResult)
    (h : setup env = .ready out c r) :
    (mainCore env transport).requestSent = some r := by
  unfold mainCore
  rw [h]
  dsimp only
  cases transport r with
  | ok response =>
    dsimp only
    cases response.choices.head? <;> rfl
  | err e => rfl

/-- Concrete environment with both variables set to non-empty values. -/
def envBoth : EnvMap := fun key =>
  if key = "OPENAI_API_KEY" then some "sk-test" else
  if key = "BASE_URL" then some "https://api.deepseek.com" else none

/-- Concrete environment that differs from `envBoth` only in `BASE_URL`. -/
def envAltBase : EnvMap := fun key =>
  if key = "OPENAI_API_KEY" then some "sk-test" else
  if key = "BASE_URL" then some "https://other.example" else none

/-- Concrete environment with both variables set to the empty string. -/
def emptyValEnv : EnvMap := fun key =>
  if key = "OPENAI_API_KEY" then some "" else
  if key = "BASE_URL" then some "" else none

/-- Concrete environment where only `BASE_URL` is set. -/
def envOnlyBase : EnvMap := fun key =>
  if key = "BASE_URL" then some "https://api.deepseek.com" else none

/-- C1: on every run, the request handed to the transport is either absent
(the run aborted before the call) or exactly the fixed request with model
`"gpt-4o-mini"`, prompt `"Hello! Can you tell me a short joke?"`, and
`max_tokens = 100`, independent of the environment, the dotenv file and the
transport. -/
theorem submitted_request_is_fixed (vars : EnvMap)
    (file : Option (List (String × String)))
    (transport : CreateCompletionRequest → ApiResult) :
    (main_run vars file transport).requestSent = none ∨
    (main_run vars file transport).requestSent =
      some { model := "gpt-4o-mini",
             prompt := "Hello! Can you tell me a short joke?",
             max_tokens := some 100 } := by
  unfold main_run
  cases h1 : dotenvMerge vars file "OPENAI_API_KEY" with
  | none =>
    left
    rw [mainCore_panic transport (setup_panic_key h1)]
  | some k =>
    cases h2 : dotenvMerge vars file "BASE_URL" with
    | none =>
      left
      rw [mainCore_panic transport (setup_panic_base h1 h2)]
    | some u =>
      right
      exact requestSent_of_ready transport (setup_ready h1 h2)

/-- C2: when `OPENAI_API_KEY` is unset (after the dotenv merge), the program
panics with a message naming the variable, and no request is ever built or
sent to the transport. -/
theorem missing_api_key_aborts (vars : EnvMap)
    (file : Option (List (String × String)))
    (transport : CreateCompletionRequest → ApiResult)
    (h : dotenvMerge vars file "OPENAI_API_KEY" = none) :
    (main_run vars file transport).outcome =
      Outcome.panic "OPENAI_API_KEY must be set" ∧
    (main_run vars file transport).requestBuilt = none ∧
    (main_run vars file transport).requestSent = none := by
  unfold main_run
  rw [mainCore_panic transport (setup_panic_key h)]
  exact ⟨rfl, rfl, rfl⟩

/-- Witness for C2 at the empty environment with no dotenv file. -/
theorem missing_api_key_aborts_witness :
    (main_run (fun _ => none) none (fun _ => ApiResult.ok ⟨[]⟩)).outcome =
      Outcome.panic "OPENAI_API_KEY must be set" ∧
    (main_run (fun _ => none) none (fun _ => ApiResult.ok ⟨[]⟩)).requestBuilt = none ∧
    (main_run (fun _ => none) none (fun _ => ApiResult.ok ⟨[]⟩)).requestSent = none :=
  missing_api_key_aborts (fun _ => none) none (fun _ => ApiResult.ok ⟨[]⟩) rfl

/-- C3: when the transport fails with error description `e`, the program
writes exactly one line `"Error calling DeepSeek API: " ++ e` to the error
stream and terminates normally (no panic, so the process exit is success). -/
theorem transport_error_reported (env : EnvMap)
    (transport : CreateCompletionRequest → ApiResult) (k u e : String)
    (h1 : env "OPENAI_API_KEY" = some k) (h2 : env "BASE_URL" = some u)
    (ht : transport fixedRequest = ApiResult.err e) :
    (mainCore env transport).stderr = ["Error calling DeepSeek API: " ++ e] ∧
    (mainCore env transport).outcome = Outcome.normal := by
  rw [mainCore_err transport (setup_ready h1 h2) ht]
  exact ⟨rfl, rfl⟩

/-- Witness for C3 with a connection-refused transport. -/
theorem transport_error_reported_witness :
    (mainCore envBoth (fun _ => ApiResult.err "connection refused")).stderr =
      ["Error calling DeepSeek API: " ++ "connection refused"] ∧
    (mainCore envBoth (fun _ => ApiResult.err "connection refused")).outcome =
      Outcome.normal :=
  transport_error_reported envBoth (fun _ => ApiResult.err "connection refused")
    "sk-test" "https://api.deepseek.com" "connection refused"
    (by rfl) (by rfl) rfl

/-- C4: when the transport succeeds with a non-empty choices sequence, the
program prints exactly the first choice's text as the reported completion
text (one line, the fixed report label followed by the unmodified text), and
terminates normally. -/
theorem first_choice_printed (env : EnvMap)
    (transport : CreateCompletionRequest → ApiResult) (k u : String)
    (c : Choice) (rest : List Choice)
    (h1 : env "OPENAI_API_KEY" = some k) (h2 : env "BASE_URL" = some u)
    (ht : transport fixedRequest = ApiResult.ok ⟨c :: rest⟩) :
    (mainCore env transport).stdout =
      setupLines k u ++ ["DeepSeek Response: " ++ c.text] ∧
    (mainCore env transport).outcome = Outcome.normal := by
  rw [mainCore_ok_cons transport (setup_ready h1 h2) ht rfl]
  exact ⟨rfl, rfl⟩

/-- Witness for C4 with the joke response from the spec. -/
theorem first_choice_printed_witness :
    (mainCore envBoth
        (fun _ => ApiResult.ok ⟨[⟨"Why did the chicken cross the road?"⟩]⟩)).stdout =
      setupLines "sk-test" "https://api.deepseek.com" ++
        ["DeepSeek Response: " ++ "Why did the chicken cross the road?"] ∧
    (mainCore envBoth
        (fun _ => ApiResult.ok ⟨[⟨"Why did the chicken cross the road?"⟩]⟩)).outcome =
      Outcome.normal :=
  first_choice_printed envBoth
    (fun _ => ApiResult.ok ⟨[⟨"Why did the chicken cross the road?"⟩]⟩)
    "sk-test" "https://api.deepseek.com"
    ⟨"Why did the chicken cross the road?"⟩ [] (by rfl) (by rfl) rfl

/-- C5: when the transport succeeds with an empty choices sequence, stdout is
exactly the three prior confirmation lines, stderr is empty, and the program
terminates normally — no completion text, no placeholder, no error, no
crash. -/
theorem empty_choices_silent (env : EnvMap)
    (transport : CreateCompletionRequest → ApiResult) (k u : String)
    (h1 : env "OPENAI_API_KEY" = some k) (h2 : env "BASE_URL" = some u)
    (ht : transport fixedRequest = ApiResult.ok ⟨[]⟩) :
    (mainCore env transport).stdout = setupLines k u ∧
    (mainCore env transport).stderr = [] ∧
    (mainCore env transport).outcome = Outcome.normal := by
  rw [mainCore_ok_nil transport (setup_ready h1 h2) ht rfl]
  exact ⟨rfl, rfl, rfl⟩

/-- Witness for C5 with a zero-choice response. -/
theorem empty_choices_silent_witness :
    (mainCore envBoth (fun _ => ApiResult.ok ⟨[]⟩)).stdout =
      setupLines "sk-test" "https://api.deepseek.com" ∧
    (mainCore envBoth (fun _ => ApiResult.ok ⟨[]⟩)).stderr = [] ∧
    (mainCore envBoth (fun _ => ApiResult.ok ⟨[]⟩)).outcome = Outcome.normal :=
  empty_choices_silent envBoth (fun _ => ApiResult.ok ⟨[]⟩)
    "sk-test" "https://api.deepseek.com" (by rfl) (by rfl) rfl

/-- C6: when both variables are set to non-empty values, the setup phase does
not abort and produces — before the transport is ever consulted — exactly the
three stdout lines in order: the credential embedded verbatim, the base
location embedded verbatim, then the client-initialized confirmation; and for
every transport, the full run terminates normally with those three lines as
the prefix of stdout. -/
theorem config_ok_prints_in_order (env : EnvMap) (k u : String)
    (h1 : env "OPENAI_API_KEY" = some k) (h2 : env "BASE_URL" = some u)
    (_hk : k ≠ "") (_hu : u ≠ "") :
    setup env = SetupResult.ready
        ["API Key: " ++ k, "Base URL: " ++ u, "Client initialized successfully!"]
        (Client.with_config (OpenAIConfig.new.with_api_key k)) fixedRequest ∧
    ∀ transport, (mainCore env transport).outcome = Outcome.normal ∧
      (mainCore env transport).stdout.take 3 =
        ["API Key: " ++ k, "Base URL: " ++ u,
         "Client initialized successfully!"] := by
  refine ⟨setup_ready h1 h2, fun transport =>
    ⟨outcome_normal_of_ready transport (setup_ready h1 h2), ?_⟩⟩
  have h3 : (setupLines k u).length = 3 := rfl
  have := stdout_take_of_ready transport (setup_ready h1 h2)
  rw [h3] at this
  exact this

/-- Witness for C6 at a concrete non-empty environment. -/
theorem config_ok_prints_in_order_witness :
    (setup envBoth = SetupResult.ready
        ["API Key: " ++ "sk-test", "Base URL: " ++ "https://api.deepseek.com",
         "Client initialized successfully!"]
        (Client.with_config (OpenAIConfig.new.with_api_key "sk-test")) fixedRequest ∧
     ∀ transport, (mainCore envBoth transport).outcome = Outcome.normal ∧
       (mainCore envBoth transport).stdout.take 3 =
         ["API Key: " ++ "sk-test", "Base URL: " ++ "https://api.deepseek.com",
          "Client initialized successfully!"]) :=
  config_ok_prints_in_order envBoth "sk-test" "https://api.deepseek.com"
    (by rfl) (by rfl) (by decide) (by decide)

/-- C7 counterexample: with both variables set to the empty string, the run
still reaches client construction (the client is built with the empty
credential) and terminates normally, so an empty value does not prevent
proceeding. -/
theorem empty_values_reach_client_construction :
    (mainCore emptyValEnv (fun _ => ApiResult.ok ⟨[]⟩)).client =
      some (Client.with_config (OpenAIConfig.new.with_api_key "")) ∧
    (mainCore emptyValEnv (fun _ => ApiResult.ok ⟨[]⟩)).outcome =
      Outcome.normal := by
  have hs := @setup_ready emptyValEnv "" "" (by rfl) (by rfl)
  exact ⟨client_of_ready _ hs, outcome_normal_of_ready _ hs⟩

/-- C7 amended: only absence of a variable prevents reaching client
construction — whenever both variables are present, with any values
(including the empty string), the client is constructed from the credential
value. -/
theorem presence_gates_client_construction (env : EnvMap)
    (transport : CreateCompletionRequest → ApiResult) (k u : String)
    (h1 : env "OPENAI_API_KEY" = some k) (h2 : env "BASE_URL" = some u) :
    (mainCore env transport).client =
      some (Client.with_config (OpenAIConfig.new.with_api_key k)) :=
  client_of_ready transport (setup_ready h1 h2)

/-- Witness for the amended C7 at empty-string values. -/
theorem presence_gates_client_construction_witness :
    (mainCore emptyValEnv (fun _ => ApiResult.err "refused")).client =
      some (Client.with_config (OpenAIConfig.new.with_api_key "")) :=
  presence_gates_client_construction emptyValEnv
    (fun _ => ApiResult.err "refused") "" "" (by rfl) (by rfl)

/-- C8: the client is built from the credential only — runs with the same
credential but any two `BASE_URL` values construct the same client, whose
configuration keeps the library's default API base. -/
theorem base_url_not_applied (env1 env2 : EnvMap)
    (transport : CreateCompletionRequest → ApiResult) (k u1 u2 : String)
    (hk1 : env1 "OPENAI_API_KEY" = some k) (hu1 : env1 "BASE_URL" = some u1)
    (hk2 : env2 "OPENAI_API_KEY" = some k) (hu2 : env2 "BASE_URL" = some u2) :
    (mainCore env1 transport).client = (mainCore env2 transport).client ∧
    (mainCore env1 transport).client =
      some { config := { api_base := OPENAI_API_BASE, api_key := k } } := by
  rw [client_of_ready transport (setup_ready hk1 hu1),
      client_of_ready transport (setup_ready hk2 hu2)]
  exact ⟨rfl, rfl⟩

/-- Witness for C8: two environments differing only in `BASE_URL` yield the
same client with the default API base. -/
theorem base_url_not_applied_witness :
    (mainCore envBoth (fun _ => ApiResult.ok ⟨[]⟩)).client =
      (mainCore envAltBase (fun _ => ApiResult.ok ⟨[]⟩)).client ∧
    (mainCore envBoth (fun _ => ApiResult.ok ⟨[]⟩)).client =
      some { config := { api_base := OPENAI_API_BASE, api_key := "sk-test" } } :=
  base_url_not_applied envBoth envAltBase (fun _ => ApiResult.ok ⟨[]⟩)
    "sk-test" "https://api.deepseek.com" "https://other.example"
    (by rfl) (by rfl) (by rfl) (by rfl)

/-- C9: the dotenv file is merged before the variable lookups — a run whose
raw environment is empty but whose dotenv file supplies both variables
terminates normally — and an absent or unreadable file behaves exactly like
an empty one: by itself it never changes the run, so it causes no error or
abort. -/
theorem dotenv_merged_before_lookup_and_absence_tolerated :
    (∀ vars transport,
      main_run vars none transport = main_run vars (some []) transport) ∧
    (∀ (k u : String) transport,
      (main_run (fun _ => none)
        (some [("OPENAI_API_KEY", k), ("BASE_URL", u)]) transport).outcome =
        Outcome.normal) := by
  constructor
  · intro vars transport
    unfold main_run
    have hmerge : dotenvMerge vars none = dotenvMerge vars (some []) := by
      funext key
      unfold dotenvMerge lookupPairs
      cases vars key <;> rfl
    rw [hmerge]
  · intro k u transport
    unfold main_run
    exact outcome_normal_of_ready transport (setup_ready (by rfl) (by rfl))

/-- C10: when either required variable is missing, the run panics having
printed nothing at all to stdout — both lookups happen before the first
print, so no credential line, base-location line or confirmation line is
emitted. -/
theorem fatal_config_error_prints_nothing (env : EnvMap)
    (transport : CreateCompletionRequest → ApiResult)
    (h : env "OPENAI_API_KEY" = none ∨ env "BASE_URL" = none) :
    (mainCore env transport).stdout = [] ∧
    ∃ m, (mainCore env transport).outcome = Outcome.panic m := by
  rcases h with h | h
  · rw [mainCore_panic transport (setup_panic_key h)]
    exact ⟨rfl, _, rfl⟩
  · cases h1 : env "OPENAI_API_KEY" with
    | none =>
      rw [mainCore_panic transport (setup_panic_key h1)]
      exact ⟨rfl, _, rfl⟩
    | some k =>
      rw [mainCore_panic transport (setup_panic_base h1 h)]
      exact ⟨rfl, _, rfl⟩

/-- Witness for C10 at an environment where only `BASE_URL` is set. -/
theorem fatal_config_error_prints_nothing_witness :
    (mainCore envOnlyBase (fun _ => ApiResult.ok ⟨[]⟩)).stdout = [] ∧
    ∃ m, (mainCore envOnlyBase (fun _ => ApiResult.ok ⟨[]⟩)).outcome =
      Outcome.panic m :=
  fatal_config_error_prints_nothing envOnlyBase (fun _ => ApiResult.ok ⟨[]⟩)
    (Or.inl (by rfl))

end DeepseekAgent
